import Mathlib

/-!
Verification of the weather-assistant context/session core.

This file gives a shallow embedding, in Lean 4, of the pure logic of the
repository: the date classifier and coordinate lookup of
`src/lib/weatherTools.ts`, the context store and session registry of
`src/lib/contextManager.ts`, and the tool-execution phase of the two chat
route handlers.  Machine dates are modelled on a single (UTC) timeline:
an instant is a civil day number plus milliseconds into the day, and the
JavaScript `Date` arithmetic of the source is reproduced with exact
integer arithmetic (Hinnant's civil-from-days algorithms).  Fallible or
effectful steps (network fetches, the completion provider) are modelled
as explicit `Except` valued oracles passed in as parameters, and the code
paths that consume them are translated statement by statement.
-/

/-! ## String helpers (JavaScript regular-expression tests and truthiness) -/

/-- Whether `p` is a prefix of `s`, over character lists. -/
def chStarts : List Char → List Char → Bool
  | [], _ => true
  | _ :: _, [] => false
  | p :: ps, c :: cs => p == c && chStarts ps cs

/-- Whether `pat` occurs as a contiguous substring of the character list. -/
def chHasSub (pat : List Char) : List Char → Bool
  | [] => pat.isEmpty
  | c :: cs => chStarts pat (c :: cs) || chHasSub pat cs

/-- JavaScript `/pat/.test(s)` for a fixed literal alternative `pat`:
substring containment. -/
def strHas (s pat : String) : Bool :=
  chHasSub pat.data s.data

/-- Lower-casing of one character as JavaScript `toLowerCase` acts on the
ASCII range (the only characters the lowered strings of this code are
compared against). -/
def jsCharLower (c : Char) : Char :=
  if 65 ≤ c.toNat ∧ c.toNat ≤ 90 then Char.ofNat (c.toNat + 32) else c

/-- JavaScript `s.toLowerCase()` (over the characters of the string). -/
def jsToLower (s : String) : String :=
  String.mk (s.data.map jsCharLower)

/-- An ASCII whitespace character (the whitespace JavaScript `trim` removes,
restricted to the ASCII range). -/
def isWs (c : Char) : Bool :=
  c == ' ' || c == '\t' || c == '\n' || c == '\r'

/-- JavaScript `s.trim()`: strip whitespace from both ends. -/
def jsTrim (s : String) : String :=
  String.mk (((s.data.dropWhile isWs).reverse.dropWhile isWs).reverse)

/-- JavaScript `x || null` on an optional string: `undefined` and the empty
string (both falsy) collapse to `null`. -/
def jsOrNull (o : Option String) : Option String :=
  match o with
  | none => none
  | some s => if s = "" then none else some s

/-- JavaScript truthiness of an optional string argument. -/
def jsTruthy (o : Option String) : Bool :=
  match o with
  | none => false
  | some s => s ≠ ""

/-! ## Civil-calendar arithmetic (the UTC timeline of JavaScript `Date`)

Day numbers count civil days since 1970-01-01 (negative before), exactly
the day component of a JavaScript epoch timestamp. -/

/-- Milliseconds per civil day. -/
def msPerDay : Int := 86400000

/-- Gregorian leap-year rule. -/
def isLeap (y : Int) : Bool :=
  y % 4 == 0 && (y % 100 != 0 || y % 400 == 0)

/-- Days in month `m` of year `y` (`m` between 1 and 12). -/
def daysInMonth (y m : Int) : Int :=
  if m = 2 then (if isLeap y then 29 else 28)
  else if m = 4 ∨ m = 6 ∨ m = 9 ∨ m = 11 then 30
  else 31

/-- Day number of the civil date `y-m-d` (days since 1970-01-01). -/
def daysFromCivil (y m d : Int) : Int :=
  let y' := if m ≤ 2 then y - 1 else y
  let era := Int.fdiv y' 400
  let yoe := y' - era * 400
  let mp := if m > 2 then m - 3 else m + 9
  let doy := Int.fdiv (153 * mp + 2) 5 + d - 1
  let doe := yoe * 365 + Int.fdiv yoe 4 - Int.fdiv yoe 100 + doy
  era * 146097 + doe - 719468

/-- Civil date `(y, m, d)` of a day number; inverse of `daysFromCivil`. -/
def civilFromDays (z : Int) : Int × Int × Int :=
  let z' := z + 719468
  let era := Int.fdiv z' 146097
  let doe := z' - era * 146097
  let yoe := Int.fdiv (doe - Int.fdiv doe 1460 + Int.fdiv doe 36524 - Int.fdiv doe 146096) 365
  let y := yoe + era * 400
  let doy := doe - (365 * yoe + Int.fdiv yoe 4 - Int.fdiv yoe 100)
  let mp := Int.fdiv (5 * doy + 2) 153
  let d := doy - Int.fdiv (153 * mp + 2) 5 + 1
  let m := if mp < 10 then mp + 3 else mp - 9
  (if m ≤ 2 then y + 1 else y, m, d)

/-- Decimal rendering of a nonnegative integer, left-padded with zeros to
width `w`. -/
def zfill (w : Nat) (n : Int) : String :=
  let s := toString n.toNat
  String.mk (List.replicate (w - s.length) '0') ++ s

/-- The `YYYY-MM-DD` rendering of a day number, as produced by
`Date.prototype.toISOString().split('T')[0]`. -/
def formatDay (z : Int) : String :=
  let c := civilFromDays z
  zfill 4 c.1 ++ "-" ++ zfill 2 c.2.1 ++ "-" ++ zfill 2 c.2.2

/-- An instant on the UTC timeline: a civil day number and the milliseconds
elapsed in that day (`ms < msPerDay` for a well-formed instant). -/
structure Instant where
  days : Int
  ms : Nat
  deriving Repr, DecidableEq

/-- The epoch-milliseconds value of an instant, as JavaScript `Date` stores
and compares it. -/
def Instant.epochMs (t : Instant) : Int :=
  t.days * msPerDay + (t.ms : Int)

example : daysFromCivil 1970 1 1 = 0 := by decide
example : daysFromCivil 2025 6 1 = 20240 := by decide
example : civilFromDays 20240 = (2025, 6, 1) := by decide
example : formatDay 20241 = "2025-06-02" := by decide
example : formatDay (daysFromCivil 2024 3 1 - 1) = "2024-02-29" := by decide

/-! ## `src/lib/weatherTools.ts` — the date classifier `parseDate` -/

/-- The three `dateType` / `currentTimeframe` values of the source
(`'current' | 'historical' | 'forecast'`). -/
inductive Timeframe where
  | current
  | historical
  | forecast
  deriving Repr, DecidableEq

/-- The result record of `parseDate`:
`{ targetDate: string | undefined, dateType }`. -/
structure DateResult where
  targetDate : Option String
  dateType : Timeframe
  deriving Repr, DecidableEq

/-- The test `/^\d\x7b4\x7d-\d\x7b2\x7d-\d\x7b2\x7d$/.test(dateStr)`: exactly
four digits, a hyphen, two digits, a hyphen, two digits. -/
def isDateLiteral (s : String) : Bool :=
  match s.data with
  | [a, b, c, d, h1, e, f, h2, g, i] =>
      a.isDigit && b.isDigit && c.isDigit && d.isDigit && h1 == '-' &&
      e.isDigit && f.isDigit && h2 == '-' && g.isDigit && i.isDigit
  | _ => false

/-- Numeric value of a list of decimal digits. -/
def digitsVal (l : List Char) : Int :=
  l.foldl (fun acc c => acc * 10 + ((c.toNat : Int) - 48)) 0

/-- JavaScript `new Date("YYYY-MM-DD")` on a string matching the date
pattern: the day number of the denoted civil date, or `none` for an
out-of-range month or day (an `Invalid Date`, whose time value is `NaN`). -/
def civilDayOfString (s : String) : Option Int :=
  match s.data with
  | [a, b, c, d, _, e, f, _, g, i] =>
      let y := digitsVal [a, b, c, d]
      let m := digitsVal [e, f]
      let dd := digitsVal [g, i]
      if 1 ≤ m ∧ m ≤ 12 ∧ 1 ≤ dd ∧ dd ≤ daysInMonth y m then
        some (daysFromCivil y m dd)
      else
        none
  | _ => none

/-- `parseDate` of `src/lib/weatherTools.ts`.  `now` is the instant produced
by `new Date()`; the switch is on `dateStr.toLowerCase()`; `tomorrow` /
`yesterday` are computed by `setDate(getDate() ± 1)` and rendered through
`toISOString().split('T')[0]`, i.e. the formatted day number ± 1 on the UTC
timeline; a string matching the `YYYY-MM-DD` pattern is compared as
`new Date(dateStr) < today`, a strict comparison of the literal's UTC
midnight against the current epoch time (false — hence `forecast` — when the
parse produced an `Invalid Date`, since `NaN < x` is false). -/
def parseDate (now : Instant) (dateStr : String) : DateResult :=
  let lower := jsToLower dateStr
  if lower = "today" ∨ lower = "now" then
    { targetDate := none, dateType := .current }
  else if lower = "tomorrow" then
    { targetDate := some (formatDay (now.days + 1)), dateType := .forecast }
  else if lower = "yesterday" then
    { targetDate := some (formatDay (now.days - 1)), dateType := .historical }
  else if isDateLiteral dateStr then
    match civilDayOfString dateStr with
    | some z =>
        { targetDate := some dateStr,
          dateType := if z * msPerDay < now.epochMs then .historical else .forecast }
    | none => { targetDate := some dateStr, dateType := .forecast }
  else
    { targetDate := none, dateType := .current }

example : parseDate ⟨20240, 0⟩ "Today" = ⟨none, .current⟩ := by decide
example : parseDate ⟨20240, 0⟩ "tomorrow" = ⟨some "2025-06-02", .forecast⟩ := by decide
example : parseDate ⟨20240, 0⟩ "yesterday" = ⟨some "2025-05-31", .historical⟩ := by decide
example : parseDate ⟨20240, 0⟩ "2024-01-15" = ⟨some "2024-01-15", .historical⟩ := by decide
example : parseDate ⟨daysFromCivil 2023 1 1, 0⟩ "2024-01-15" =
    ⟨some "2024-01-15", .forecast⟩ := by decide
example : parseDate ⟨20240, 0⟩ "next week" = ⟨none, .current⟩ := by decide

/-! ## `src/lib/weatherTools.ts` — coordinate resolution

Coordinates appear scaled by `10^4` so that the decimal literals of the
source are represented exactly as integers. -/

/-- One entry of the `CITY_COORDINATES` table: latitude, longitude (both
scaled by `10^4`) and country. -/
structure CityEntry where
  lat : Int
  lng : Int
  country : String
  deriving Repr, DecidableEq

/-- The hardcoded `CITY_COORDINATES` lookup table. -/
def CITY_COORDINATES (key : String) : Option CityEntry :=
  if key = "mumbai" then some ⟨190760, 728777, "India"⟩
  else if key = "delhi" then some ⟨287041, 771025, "India"⟩
  else if key = "bangalore" then some ⟨129716, 775946, "India"⟩
  else if key = "varanasi" then some ⟨253176, 829739, "India"⟩
  else if key = "kolkata" then some ⟨225726, 883639, "India"⟩
  else if key = "chennai" then some ⟨130827, 802707, "India"⟩
  else if key = "hyderabad" then some ⟨173850, 784867, "India"⟩
  else if key = "pune" then some ⟨185204, 738567, "India"⟩
  else if key = "tokyo" then some ⟨356762, 1396503, "Japan"⟩
  else if key = "london" then some ⟨515074, -1278, "UK"⟩
  else if key = "paris" then some ⟨488566, 23522, "France"⟩
  else if key = "new york" then some ⟨407128, -740060, "USA"⟩
  else if key = "sydney" then some ⟨-338688, 1512093, "Australia"⟩
  else if key = "berlin" then some ⟨525200, 134050, "Germany"⟩
  else if key = "rome" then some ⟨419028, 124964, "Italy"⟩
  else if key = "madrid" then some ⟨404168, -37038, "Spain"⟩
  else none

/-- Outcome of `getCoordinates`: either a hardcoded-table hit (returned
without any network call), or a fall-through to the geocoding API with the
given location string. -/
inductive CoordsOutcome where
  | hit (lat lng : Int) (city country : String)
  | geocode (location : String)
  deriving Repr, DecidableEq

/-- The pure prefix of `getCoordinates`: normalize the location with
`toLowerCase().trim()`, consult the hardcoded table, and only on a miss fall
through to the geocoding request (whose network result is outside this
model).  On a hit the `city` field is the caller's original string,
unchanged. -/
def getCoordinates (location : String) : CoordsOutcome :=
  let normalizedLocation := jsTrim (jsToLower location)
  match CITY_COORDINATES normalizedLocation with
  | some coords => .hit coords.lat coords.lng location coords.country
  | none => .geocode location

example : getCoordinates " TOKYO " = .hit 356762 1396503 " TOKYO " "Japan" := by decide
example : getCoordinates "Atlantis" = .geocode "Atlantis" := by decide

/-! ## `src/lib/contextManager.ts` — the context data model

Timestamps (`lastUsed`, `lastActivity`, `startTime`, …) are carried as
epoch-millisecond numbers rather than ISO strings: no claim inspects their
textual rendering, only their presence and order.  Numeric fields never
computed with (`latitude`, `confidence`, …) are carried as integers scaled
so the source's decimal literals are exact. -/

/-- `LocationData`.  `confidence` keeps the source's numeric field scaled by
`10`, so `1.0` is `10`. -/
structure LocationData where
  city : String
  country : String
  latitude : Int
  longitude : Int
  timezone : Option String := none
  confidence : Option Int := none
  lastUsed : Option Int := none
  deriving Repr, DecidableEq

/-- Identity of a location: its `(city, country)` pair. -/
def locKey (l : LocationData) : String × String :=
  (l.city, l.country)

/-- One entry of `TemporalContext.recentDates`. -/
structure RecentDate where
  date : String
  type : Timeframe
  lastUsed : Int
  deriving Repr, DecidableEq

/-- `TemporalContext`. -/
structure TemporalContext where
  currentTimeframe : Timeframe
  targetDate : Option String
  recentDates : List RecentDate
  relativeDateContext : Option String := none
  deriving Repr, DecidableEq

/-- The query-intent enumeration of `ConversationContext`. -/
inductive QueryIntent where
  | weather
  | clothing
  | travel
  | comparison
  | general
  deriving Repr, DecidableEq

/-- The kind tag of a `conversationFlow` entry. -/
inductive FlowKind where
  | location
  | date
  | intent
  deriving Repr, DecidableEq

/-- One entry of `ConversationContext.conversationFlow`. -/
structure FlowItem where
  type : FlowKind
  value : String
  timestamp : Int
  deriving Repr, DecidableEq

/-- `ConversationContext`. -/
structure ConversationContext where
  lastWeatherQuery : String
  queryIntent : QueryIntent
  followUpContext : Option String
  conversationFlow : List FlowItem
  lastResponse : Option String := none
  deriving Repr, DecidableEq

/-- `UserPreferences`. -/
structure UserPreferences where
  language : String
  units : String
  detailLevel : String
  favoriteLocations : List LocationData
  defaultLocation : Option LocationData := none
  deriving Repr, DecidableEq

/-- The `session` sub-record of `WeatherContext`. -/
structure SessionMeta where
  startTime : Int
  lastActivity : Int
  messageCount : Nat
  deriving Repr, DecidableEq

/-- The `location` sub-record of `WeatherContext`. -/
structure LocationSection where
  current : Option LocationData
  recent : List LocationData
  preferences : List String
  deriving Repr, DecidableEq

/-- `WeatherContext`, the aggregate conversational state. -/
structure WeatherContext where
  location : LocationSection
  temporal : TemporalContext
  conversation : ConversationContext
  preferences : UserPreferences
  session : SessionMeta
  deriving Repr, DecidableEq

namespace ContextManager

/-- `MAX_RECENT_LOCATIONS`. -/
def MAX_RECENT_LOCATIONS : Nat := 5

/-- `MAX_RECENT_DATES`. -/
def MAX_RECENT_DATES : Nat := 10

/-- `ContextManager.initializeContext`, at start instant `now` (the two
`new Date().toISOString()` stamps). -/
def initializeContext (now : Int) : WeatherContext :=
  { location := { current := none, recent := [], preferences := [] }
    temporal := { currentTimeframe := .current, targetDate := none, recentDates := [] }
    conversation :=
      { lastWeatherQuery := "", queryIntent := .general, followUpContext := none,
        conversationFlow := [] }
    preferences :=
      { language := "ja", units := "metric", detailLevel := "detailed",
        favoriteLocations := [] }
    session := { startTime := now, lastActivity := now, messageCount := 0 } }

/-- `ContextManager.addToConversationFlow`: push the entry, then keep only
the last 20 items (`slice(-20)`). -/
def addToConversationFlow (ctx : WeatherContext) (type : FlowKind) (value : String)
    (now : Int) : WeatherContext :=
  let fl := ctx.conversation.conversationFlow ++ [⟨type, value, now⟩]
  let fl := if fl.length > 20 then fl.drop (fl.length - 20) else fl
  { ctx with conversation := { ctx.conversation with conversationFlow := fl } }

/-- `ContextManager.updateLocation`: stamp the location (`lastUsed := now`,
`confidence := location.confidence || 1.0`), make it current, drop any
recent entry with the same `(city, country)` pair, `unshift` the stamped
location, and cut the list back to `MAX_RECENT_LOCATIONS` when it grew past
the cap.  `persistContext` bumps `session.lastActivity`. -/
def updateLocation (ctx : WeatherContext) (location : LocationData) (now : Int) :
    WeatherContext :=
  let cur : LocationData :=
    { location with
      lastUsed := some now,
      confidence := some (match location.confidence with
        | some c => if c = 0 then 10 else c
        | none => 10) }
  let recent := ctx.location.recent.filter
    (fun loc => !(loc.city == location.city && loc.country == location.country))
  let recent := cur :: recent
  let recent := if recent.length > MAX_RECENT_LOCATIONS
    then recent.take MAX_RECENT_LOCATIONS else recent
  let ctx := { ctx with
    location := { ctx.location with current := some cur, recent := recent } }
  let ctx := addToConversationFlow ctx .location
    (location.city ++ ", " ++ location.country) now
  { ctx with session := { ctx.session with lastActivity := now } }

/-- `ContextManager.updateTemporalContext`: overwrite the timeframe, store
`targetDate || null` and the relative-date hint, and — only when a truthy
target date arrives with a non-`current` timeframe — thread it into the
MRU `recentDates` list (cap `MAX_RECENT_DATES`) and the conversation flow.
`persistContext` bumps `session.lastActivity`. -/
def updateTemporalContext (ctx : WeatherContext) (timeframe : Timeframe)
    (targetDate : Option String) (relativeDateContext : Option String) (now : Int) :
    WeatherContext :=
  let temporal := { ctx.temporal with
    currentTimeframe := timeframe,
    targetDate := jsOrNull targetDate,
    relativeDateContext := relativeDateContext }
  let ctx := { ctx with temporal := temporal }
  let ctx :=
    if jsTruthy targetDate ∧ timeframe ≠ .current then
      let td := targetDate.getD ""
      let rd := ctx.temporal.recentDates.filter (fun d => !(d.date == td))
      let rd := (⟨td, timeframe, now⟩ : RecentDate) :: rd
      let rd := if rd.length > MAX_RECENT_DATES then rd.take MAX_RECENT_DATES else rd
      let ctx := { ctx with temporal := { ctx.temporal with recentDates := rd } }
      addToConversationFlow ctx .date
        ((jsOrNull relativeDateContext).getD td) now
    else ctx
  { ctx with session := { ctx.session with lastActivity := now } }

/-- The result record of `ContextManager.resolveImplicitContext`. -/
structure ImplicitResolution where
  location : Option LocationData
  temporal : TemporalContext
  needsLocationInput : Bool
  needsTimeInput : Bool
  contextualQuery : String
  deriving Repr, DecidableEq

/-- The locative-marker test of `resolveImplicitContext`:
`/の天気|で|に/.test(query)` for Japanese, `/in |at |for /` on the lowered
query for English. -/
def hasExplicitLocation (language query : String) : Bool :=
  if language = "ja" then
    strHas query "の天気" || strHas query "で" || strHas query "に"
  else
    strHas (jsToLower query) "in " || strHas (jsToLower query) "at " ||
    strHas (jsToLower query) "for "

/-- `ContextManager.resolveImplicitContext`: flag `needsLocationInput` when
the query carries no locative marker and no current location is stored, and
rewrite the query with the stored city (Japanese `city の query`, English
`query in city`) when a marker is absent but a location is stored. -/
def resolveImplicitContext (ctx : WeatherContext) (query : String)
    (language : String) : ImplicitResolution :=
  let hasLoc := hasExplicitLocation language query
  let needsLocationInput := !hasLoc && ctx.location.current.isNone
  let contextualQuery :=
    match ctx.location.current with
    | some cur =>
        if !hasLoc then
          if language = "ja" then cur.city ++ "の" ++ query
          else query ++ " in " ++ cur.city
        else query
    | none => query
  { location := ctx.location.current
    temporal := ctx.temporal
    needsLocationInput := needsLocationInput
    needsTimeInput := false
    contextualQuery := contextualQuery }

end ContextManager

/-! ## `src/lib/contextManager.ts` — the session registry (`SessionStore`)

The in-memory `Map` keyed by session identifier is an association list;
`now` (the instant `new Date()` / `Date.now()` observe during one call) is
passed explicitly. -/

/-- A `WeatherSession` entry of the store. -/
structure Session where
  sessionId : String
  context : WeatherContext
  lastActivity : Int
  expiresAt : Int
  deriving Repr, DecidableEq

/-- The session map: association list from identifier to session. -/
abbrev SessStore := List (String × Session)

/-- A `Partial<WeatherContext>` as `updateSession` receives it: each
top-level field either absent or replaced wholesale (shallow spread).  The
`session` sub-record is not carried: `updateSession` overwrites it
explicitly after the spread, so a `session` field of the partial never
survives. -/
structure CtxPatch where
  location : Option LocationSection := none
  temporal : Option TemporalContext := none
  conversation : Option ConversationContext := none
  preferences : Option UserPreferences := none
  deriving Repr, DecidableEq

/-- The shallow spread `{ ...context, ...updates }`. -/
def mergePatch (ctx : WeatherContext) (u : CtxPatch) : WeatherContext :=
  { location := u.location.getD ctx.location
    temporal := u.temporal.getD ctx.temporal
    conversation := u.conversation.getD ctx.conversation
    preferences := u.preferences.getD ctx.preferences
    session := ctx.session }

namespace SessionStore

/-- `SESSION_TIMEOUT`: 24 hours in milliseconds. -/
def SESSION_TIMEOUT : Int := 24 * 60 * 60 * 1000

/-- `Map.prototype.delete`: drop the entry keyed `sid`. -/
def eraseKey (store : SessStore) (sid : String) : SessStore :=
  store.filter (fun p => !(p.1 == sid))

/-- `Map.prototype.set`: bind `sid` to `s` (the binding `lookup` sees). -/
def setKey (store : SessStore) (sid : String) (s : Session) : SessStore :=
  (sid, s) :: eraseKey store sid

/-- `SessionStore.createSession` (fresh context seeded with no partial):
generates an entry with `expiresAt = now + SESSION_TIMEOUT`. -/
def createSession (store : SessStore) (sessionId : String) (now : Int) :
    Session × SessStore :=
  let session : Session :=
    { sessionId := sessionId
      context :=
        { location := { current := none, recent := [], preferences := [] }
          temporal := { currentTimeframe := .current, targetDate := none, recentDates := [] }
          conversation :=
            { lastWeatherQuery := "", queryIntent := .general, followUpContext := none,
              conversationFlow := [] }
          preferences :=
            { language := "en", units := "metric", detailLevel := "detailed",
              favoriteLocations := [] }
          session := { startTime := now, lastActivity := now, messageCount := 0 } }
      lastActivity := now
      expiresAt := now + SESSION_TIMEOUT }
  (session, setKey store sessionId session)

/-- `SessionStore.getSession`: `null` for an unknown identifier; for a
present entry, if `new Date() > session.expiresAt` the entry is deleted and
`null` returned, otherwise the session.  Returns the possibly-purged
store alongside. -/
def getSession (store : SessStore) (now : Int) (sessionId : String) :
    Option Session × SessStore :=
  match store.lookup sessionId with
  | none => (none, store)
  | some session =>
      if session.expiresAt < now then (none, eraseKey store sessionId)
      else (some session, store)

/-- `SessionStore.updateSession`: fetch through `getSession` (lazy
eviction); on success spread the partial over the context, overwrite the
`session` sub-record (`lastActivity := now`, `messageCount + 1`), stamp
`lastActivity` and slide `expiresAt` to `now + SESSION_TIMEOUT`. -/
def updateSession (store : SessStore) (now : Int) (sessionId : String)
    (updates : CtxPatch) : Option Session × SessStore :=
  match getSession store now sessionId with
  | (none, store') => (none, store')
  | (some session, store') =>
      let merged := mergePatch session.context updates
      let session' : Session :=
        { session with
          context := { merged with
            session := { merged.session with
              lastActivity := now,
              messageCount := merged.session.messageCount + 1 } }
          lastActivity := now
          expiresAt := now + SESSION_TIMEOUT }
      (some session', setKey store' sessionId session')

/-- `SessionStore.updateLocation`: on a live session, make `location`
current and `[location, ...recent without its (city,country)].slice(0, 5)`
the recent list, then run `updateSession` with that patch. -/
def updateLocation (store : SessStore) (now : Int) (sessionId : String)
    (location : LocationData) : Option Session × SessStore :=
  match getSession store now sessionId with
  | (none, store') => (none, store')
  | (some session, _) =>
      let recent := (location :: session.context.location.recent.filter
        (fun loc => !(loc.city == location.city && loc.country == location.country))).take 5
      let patch : CtxPatch :=
        { location := some
            { current := some location
              recent := recent
              preferences := session.context.location.preferences } }
      updateSession store now sessionId patch

/-- `SessionStore.updateTemporal`: overwrite the timeframe, store
`targetDate || null`, thread a truthy target date into the MRU
`recentDates` list (`slice(0, 10)`), and run `updateSession`. -/
def updateTemporal (store : SessStore) (now : Int) (sessionId : String)
    (timeframe : Timeframe) (targetDate : Option String) : Option Session × SessStore :=
  match getSession store now sessionId with
  | (none, store') => (none, store')
  | (some session, _) =>
      let td := targetDate.getD ""
      let patch : CtxPatch :=
        { temporal := some
            { currentTimeframe := timeframe
              targetDate := jsOrNull targetDate
              recentDates :=
                if jsTruthy targetDate then
                  ((⟨td, timeframe, now⟩ : RecentDate) ::
                    session.context.temporal.recentDates.filter
                      (fun d => !(d.date == td))).take 10
                else session.context.temporal.recentDates } }
      updateSession store now sessionId patch

end SessionStore

/-! ## `src/lib/contextManager.ts` — `resolveContextWithSession` -/

/-- A thrown JavaScript error, as far as this model distinguishes them. -/
inductive JsError where
  | referenceError (name : String)
  deriving Repr, DecidableEq

/-- The result record of `resolveContextWithSession`. -/
structure SessionResolution where
  session : Option Session
  needsLocationInput : Bool
  needsTimeInput : Bool
  contextualQuery : String
  deriving Repr, DecidableEq

/-- The location-indicator test of `resolveContextWithSession`: the
Japanese marker regex or `query.length > 10`, resp. the English regex
`/in |at |for |weather/` on the lowered query or `query.length > 10`. -/
def hasLocationIndicators (language query : String) : Bool :=
  if language = "ja" then
    (strHas query "の天気" || strHas query "で" || strHas query "に") ||
      query.length > 10
  else
    (strHas (jsToLower query) "in " || strHas (jsToLower query) "at " ||
      strHas (jsToLower query) "for " || strHas (jsToLower query) "weather") ||
      query.length > 10

/-- `resolveContextWithSession`.  With no live session it returns the query
unchanged and asks for a location only for a very short query with no
indicators.  With a live session, the source next evaluates
`if (!hasExplicitLocation && context.location.current)` — but no binding
named `hasExplicitLocation` exists in this function (the indicator flag is
named `hasLocationIndicators`), so reaching that line throws a
`ReferenceError`; the throw is modelled as `Except.error`. -/
def resolveContextWithSession (store : SessStore) (now : Int) (sessionId : String)
    (query : String) (language : String) : Except JsError SessionResolution :=
  let hasInd := hasLocationIndicators language query
  match (SessionStore.getSession store now sessionId).1 with
  | none =>
      .ok { session := none
            needsLocationInput := !hasInd && decide ((jsTrim query).length < 8)
            needsTimeInput := false
            contextualQuery := query }
  | some _ => .error (.referenceError "hasExplicitLocation")

/-! ## The tool-call orchestrator

`src/app/api/chat-optimized/route.ts` (single-lookup handler) and the
multi-lookup handler staged with `src/app/compare/page.tsx` (the `POST`
that maps `Promise.all` over `message.tool_calls`).  Both are modelled from
the point where the first completion response arrived carrying the
assistant message: the completion provider's second round trip and the
weather executor are oracles (`complete2`, `exec`) passed as parameters;
`Promise.all`'s fail-fast join is the `Except`-valued traversal
`execAll`. -/

/-- The arguments of one `get_weather` invocation (`WeatherToolParams`). -/
structure WeatherToolParams where
  location : String
  date : Option String := none
  deriving Repr, DecidableEq

/-- A `WeatherToolResponse` observation.  Numeric readings are scaled
integers (no claim computes with them). -/
structure WeatherToolResponse where
  city : String
  country : String
  temperature : Int
  description : String
  humidity : Int
  windSpeed : Int
  precipitation : Int
  uvIndex : Int
  timestamp : String
  dateType : Timeframe
  targetDate : Option String := none
  deriving Repr, DecidableEq

/-- One requested tool invocation of the completion response
(`message.tool_calls[i]`): its call identifier and parsed arguments. -/
structure ToolCall where
  id : String
  args : WeatherToolParams
  deriving Repr, DecidableEq

/-- A chat message as the handlers assemble them. -/
structure Msg where
  role : String
  content : String
  tool_call_id : Option String := none
  toolCalls : List ToolCall := []
  deriving Repr, DecidableEq

/-- A JSON string literal (escaping elided: no encoded field of this
development carries a quote or backslash). -/
def jsonStr (s : String) : String := "\"" ++ s ++ "\""

/-- The JSON rendering of a `dateType` value. -/
def Timeframe.str : Timeframe → String
  | .current => "current"
  | .historical => "historical"
  | .forecast => "forecast"

/-- `JSON.stringify` of a weather observation, field for field. -/
def encodeObs (o : WeatherToolResponse) : String :=
  "\x7b\"city\":" ++ jsonStr o.city ++ ",\"country\":" ++ jsonStr o.country ++
  ",\"temperature\":" ++ toString o.temperature ++
  ",\"description\":" ++ jsonStr o.description ++
  ",\"humidity\":" ++ toString o.humidity ++
  ",\"windSpeed\":" ++ toString o.windSpeed ++
  ",\"precipitation\":" ++ toString o.precipitation ++
  ",\"uvIndex\":" ++ toString o.uvIndex ++
  ",\"timestamp\":" ++ jsonStr o.timestamp ++
  ",\"dateType\":" ++ jsonStr o.dateType.str ++
  (match o.targetDate with
   | some d => ",\"targetDate\":" ++ jsonStr d
   | none => "") ++ "\x7d"

/-- The `weatherData` field of a response body: the single-lookup handler
returns one observation object, the multi-lookup handler an array. -/
inductive WeatherPayload where
  | one (o : WeatherToolResponse)
  | many (l : List WeatherToolResponse)
  deriving Repr, DecidableEq

/-- The JSON body a handler returns (`NextResponse.json` argument): absent
fields are `none`. -/
structure ChatResponse where
  response : String
  error : Bool := false
  weatherData : Option WeatherPayload := none
  toolsUsed : Option Nat := none
  multiCity : Option Bool := none
  toolUsed : Option Bool := none
  deriving Repr, DecidableEq

/-- The localized tool-failure message of the multi-lookup handler
("could not retrieve weather"). -/
def couldNotRetrieveMsg (language : String) : String :=
  if language = "ja" then
    "申し訳ございませんが、天気情報を取得できませんでした。別の都市名をお試しください。"
  else
    "Sorry, I couldn\x27t get weather information. Please try different city names."

/-- The localized tool-failure message of the single-lookup handler, which
names the requested location. -/
def couldNotRetrieveForMsg (language location : String) : String :=
  if language = "ja" then
    "申し訳ございませんが、" ++ location ++ "の天気情報を取得できませんでした。別の都市名をお試しください。"
  else
    "Sorry, I couldn\x27t get weather information for " ++ location ++
      ". Please try a different city name."

/-- The second (formatting) system preamble of the multi-lookup handler. -/
def fmtSystemMsg (language : String) : Msg :=
  { role := "system"
    content :=
      "You are a helpful weather assistant. Format the weather data into a comprehensive response with fashion and travel recommendations.\n\nFORMATTING GUIDELINES:\n- For multiple cities: create clear comparisons and highlight differences\n- Start with a weather summary for each location\n- Include temperature, conditions, humidity, wind, and precipitation\n- Provide clothing recommendations based on the weather\n- Suggest activities appropriate for the conditions\n- Give practical tips (umbrella, sunscreen, etc.)\n- Be conversational and helpful\n- If historical data: use past tense\n- If forecast data: mention it\x27s a prediction\n- For comparisons: highlight which city is warmer/cooler, wetter/drier, etc.\n\nRespond in " ++
      (if language = "ja" then "Japanese" else "English") ++ "." }

/-- The second (formatting) system preamble of the single-lookup handler. -/
def fmtSystemMsgSingle (language : String) : Msg :=
  { role := "system"
    content :=
      "You are a helpful weather assistant. Format the weather data into a comprehensive response with fashion and travel recommendations.\n\nFORMATTING GUIDELINES:\n- Start with a clear weather summary\n- Include temperature, conditions, humidity, wind, and precipitation\n- Provide clothing recommendations based on the weather\n- Suggest activities appropriate for the conditions\n- Give practical tips (umbrella, sunscreen, etc.)\n- Be conversational and helpful\n- If historical data: use past tense\n- If forecast data: mention it\x27s a prediction\n\nRespond in " ++
      (if language = "ja" then "Japanese" else "English") ++ "." }

/-- One tool-result message: `role: 'tool'`, tagged with the originating
call identifier, content the JSON-encoded observation. -/
def toolMsg (id : String) (r : WeatherToolResponse) : Msg :=
  { role := "tool", content := encodeObs r, tool_call_id := some id }

/-- The fan-out/fan-in join: `Promise.all(message.tool_calls.map(...))`.
Every requested lookup runs; if any rejects the join rejects (the
successes are discarded), otherwise the results arrive in request order
paired with their call identifiers. -/
def execAll (exec : WeatherToolParams → Except String WeatherToolResponse) :
    List ToolCall → Except String (List (String × WeatherToolResponse))
  | [] => .ok []
  | tc :: rest =>
      match exec tc.args with
      | .error e => .error e
      | .ok r =>
          match execAll exec rest with
          | .error e => .error e
          | .ok rs => .ok ((tc.id, r) :: rs)

/-- The `EXECUTE_TOOLS` phase of the multi-lookup handler: the body of its
`if (message.tool_calls && message.tool_calls.length > 0)` branch.
`messages` is the inbound history, `assistantMsg` the completion message
carrying the tool calls, `exec` the weather executor and `complete2` the
second completion round trip.  The surrounding `try/catch` converts a
failure of the join, of the second completion call, or a non-ok status
into the localized error body `{ response, error: true }`. -/
def chatToolsToolPhase (language : String) (messages : List Msg) (assistantMsg : Msg)
    (exec : WeatherToolParams → Except String WeatherToolResponse)
    (complete2 : List Msg → Except String String) : ChatResponse :=
  match execAll exec assistantMsg.toolCalls with
  | .error _ => { response := couldNotRetrieveMsg language, error := true }
  | .ok toolResults =>
      let toolMessages := toolResults.map (fun p => toolMsg p.1 p.2)
      match complete2 (fmtSystemMsg language :: messages ++ [assistantMsg] ++ toolMessages) with
      | .error _ => { response := couldNotRetrieveMsg language, error := true }
      | .ok finalMessage =>
          { response := finalMessage
            weatherData := some (.many (toolResults.map (·.2)))
            toolsUsed := some toolResults.length
            multiCity := some (decide (toolResults.length > 1)) }

/-- The tool phase of `src/app/api/chat-optimized/route.ts`: only
`message.tool_calls[0]` is executed; on success the single observation is
sent back for formatting and returned (not wrapped in an array) with
`toolUsed: true`; the `catch` converts any failure into the localized
per-location error body. -/
def chatOptimizedToolPhase (language : String) (messages : List Msg) (assistantMsg : Msg)
    (exec : WeatherToolParams → Except String WeatherToolResponse)
    (complete2 : List Msg → Except String String) : ChatResponse :=
  match assistantMsg.toolCalls with
  | [] => { response := assistantMsg.content, toolUsed := some false }
  | toolCall :: _ =>
      match exec toolCall.args with
      | .error _ =>
          { response := couldNotRetrieveForMsg language toolCall.args.location,
            error := true }
      | .ok weatherResult =>
          match complete2 (fmtSystemMsgSingle language :: messages ++ [assistantMsg] ++
              [toolMsg toolCall.id weatherResult]) with
          | .error _ =>
              { response := couldNotRetrieveForMsg language toolCall.args.location,
                error := true }
          | .ok finalMessage =>
              { response := finalMessage
                weatherData := some (.one weatherResult)
                toolUsed := some true }

/-! ## Shared lemmas -/

/-- A key just erased from the store is no longer found. -/
theorem lookup_eraseKey (store : SessStore) (sid : String) :
    (SessionStore.eraseKey store sid).lookup sid = none := by
  induction store with
  | nil => rfl
  | cons p rest ih =>
    simp only [SessionStore.eraseKey, List.filter_cons] at *
    by_cases hp : p.1 = sid
    · simpa [hp] using ih
    · have hne : (p.1 == sid) = false := beq_false_of_ne hp
      have hne' : (sid == p.1) = false := beq_false_of_ne (Ne.symm hp)
      simp only [hne, Bool.not_false, if_pos, List.lookup, hne']
      exact ih

/-- A key just set in the store is found with the set value. -/
theorem lookup_setKey (store : SessStore) (sid : String) (s : Session) :
    (SessionStore.setKey store sid s).lookup sid = some s := by
  simp [SessionStore.setKey, List.lookup]

/-! ## C10 — hardcoded city table hits -/

/-- C10: for every location string whose lowercased, trimmed form is a key
of the hardcoded city-coordinates table, coordinate resolution performs no
geocoding call and returns the caller's original location string verbatim
as the `city` field, with the country taken from the table. -/
theorem getCoordinates_hardcoded_hit (location : String) (e : CityEntry)
    (h : CITY_COORDINATES (jsTrim (jsToLower location)) = some e) :
    getCoordinates location = .hit e.lat e.lng location e.country
    ∧ ∀ l, getCoordinates location ≠ .geocode l := by
  have h1 : getCoordinates location = .hit e.lat e.lng location e.country := by
    unfold getCoordinates
    simp only []
    rw [h]
  exact ⟨h1, fun l hcontra => by rw [h1] at hcontra; exact CoordsOutcome.noConfusion hcontra⟩

/-- Witness for C10 at the location string `" TOKYO "`: the normalized form
`"tokyo"` is in the table, and the original spelling is preserved. -/
theorem getCoordinates_hardcoded_hit_witness :
    getCoordinates " TOKYO " = .hit 356762 1396503 " TOKYO " "Japan"
    ∧ ∀ l, getCoordinates " TOKYO " ≠ .geocode l :=
  getCoordinates_hardcoded_hit " TOKYO " ⟨356762, 1396503, "Japan"⟩ (by decide)

/-! ## C9 — unknown or expired session falls back to stateless resolution -/

/-- C9: for every query and language, when the given session identifier is
unknown or expired, `resolveContextWithSession` returns `session = null`
and a `contextualQuery` identical to the input query, with
`needsLocationInput = true` exactly when the query has no location
indicators and its trimmed length is below the short-query threshold 8. -/
theorem resolveContextWithSession_notFound (store : SessStore) (now : Int)
    (sessionId query language : String)
    (h : (SessionStore.getSession store now sessionId).1 = none) :
    resolveContextWithSession store now sessionId query language =
      .ok { session := none
            needsLocationInput := !hasLocationIndicators language query &&
              decide ((jsTrim query).length < 8)
            needsTimeInput := false
            contextualQuery := query }
    ∧ ∀ r, resolveContextWithSession store now sessionId query language = .ok r →
        (r.needsLocationInput = true ↔
          hasLocationIndicators language query = false ∧ (jsTrim query).length < 8) := by
  have h1 : resolveContextWithSession store now sessionId query language =
      .ok { session := none
            needsLocationInput := !hasLocationIndicators language query &&
              decide ((jsTrim query).length < 8)
            needsTimeInput := false
            contextualQuery := query } := by
    unfold resolveContextWithSession
    rw [h]
  refine ⟨h1, fun r hr => ?_⟩
  rw [h1] at hr
  cases hr
  simp [Bool.and_eq_true, Bool.not_eq_true']

/-- Witness for C9: the empty store knows no session, the short query
`"hi"` has no location indicators, so a location is asked for and the query
passes through unchanged. -/
theorem resolveContextWithSession_notFound_witness :
    resolveContextWithSession [] 0 "missing" "hi" "en" =
      .ok { session := none
            needsLocationInput := !hasLocationIndicators "en" "hi" &&
              decide ((jsTrim "hi").length < 8)
            needsTimeInput := false
            contextualQuery := "hi" }
    ∧ ∀ r, resolveContextWithSession [] 0 "missing" "hi" "en" = .ok r →
        (r.needsLocationInput = true ↔
          hasLocationIndicators "en" "hi" = false ∧ (jsTrim "hi").length < 8) :=
  resolveContextWithSession_notFound [] 0 "missing" "hi" "en" rfl

/-! ## C6 — query rewriting with a session-resident location -/

/-- A resolved location for the C6 scenario (Varanasi, coordinates from the
hardcoded table). -/
def varanasiLoc : LocationData :=
  { city := "Varanasi", country := "India", latitude := 253176, longitude := 829739 }

/-- A context whose current location is Varanasi. -/
def c6Context : WeatherContext :=
  { ContextManager.initializeContext 0 with
    location := { current := some varanasiLoc, recent := [varanasiLoc], preferences := [] } }

/-- A store holding one live session (created at 0, expiring a day later)
carrying `c6Context`. -/
def c6Store : SessStore :=
  [("s1", { sessionId := "s1", context := c6Context, lastActivity := 0,
            expiresAt := 86400000 })]

/-- C6: the claimed rewrite is what `ContextManager.resolveImplicitContext`
performs (conjuncts 2 and 3: `needsLocationInput = false` and the stored
city spliced into the query), but the server-side resolver
`resolveContextWithSession` never reaches its rewrite on a live session: it
reads the undefined identifier `hasExplicitLocation` and throws a
`ReferenceError` (conjunct 1), so the claimed behaviour is unreachable
there. -/
theorem resolveContextWithSession_referenceError :
    resolveContextWithSession c6Store 1000 "s1" "Tomorrow?" "en" =
      .error (.referenceError "hasExplicitLocation")
    ∧ (ContextManager.resolveImplicitContext c6Context "Tomorrow?" "en").needsLocationInput
        = false
    ∧ (ContextManager.resolveImplicitContext c6Context "Tomorrow?" "en").contextualQuery
        = "Tomorrow? in Varanasi" := by
  refine ⟨?_, ?_, ?_⟩ <;> rfl

/-! ## C5 — the temporal invariant under temporal updates -/

/-- The §3 invariant: a `current` timeframe carries no target date. -/
def temporalInvariant (t : TemporalContext) : Prop :=
  t.currentTimeframe = .current → t.targetDate = none

/-- C5 counterexample: calling `updateTemporalContext` with the timeframe
`current` and a (truthy) target date stores both — the stored state then
has `currentTimeframe = current` with `targetDate ≠ null`, violating the
invariant the claim says every temporal update preserves. -/
theorem updateTemporalContext_current_stores_date :
    ((ContextManager.updateTemporalContext (ContextManager.initializeContext 0)
        .current (some "2025-01-01") none 0).temporal.currentTimeframe = Timeframe.current)
    ∧ ((ContextManager.updateTemporalContext (ContextManager.initializeContext 0)
        .current (some "2025-01-01") none 0).temporal.targetDate = some "2025-01-01") := by
  constructor <;> rfl

/-- C5 (amended): both temporal update operations preserve the invariant
whenever a `current` timeframe arrives without a truthy target date (the
only arguments the date classifier ever pairs with `current`); the stored
`targetDate` is always `targetDate || null`, irrespective of the
timeframe. -/
theorem updateTemporal_preserves_invariant (ctx : WeatherContext) (timeframe : Timeframe)
    (targetDate relativeDateContext : Option String) (now : Int)
    (h : timeframe = .current → jsOrNull targetDate = none) :
    temporalInvariant ((ContextManager.updateTemporalContext ctx timeframe targetDate
        relativeDateContext now).temporal)
    ∧ ∀ (store : SessStore) (sid : String) (s' : Session) (store2 : SessStore),
        SessionStore.updateTemporal store now sid timeframe targetDate = (some s', store2) →
        temporalInvariant s'.context.temporal := by
  constructor
  · intro hcur
    by_cases hguard : jsTruthy targetDate ∧ timeframe ≠ .current
    · simp only [ContextManager.updateTemporalContext,
        ContextManager.addToConversationFlow, if_pos hguard] at hcur ⊢
      exact absurd hcur hguard.2
    · simp only [ContextManager.updateTemporalContext,
        ContextManager.addToConversationFlow, if_neg hguard] at hcur ⊢
      exact h hcur
  · intro store sid s' store2 hupd
    rcases hg : SessionStore.getSession store now sid with ⟨os, st⟩
    cases os with
    | none =>
        simp only [SessionStore.updateTemporal, hg, Prod.mk.injEq] at hupd
        exact absurd hupd.1 (by simp)
    | some session =>
        simp only [SessionStore.updateTemporal, SessionStore.updateSession, hg,
          Prod.mk.injEq] at hupd
        intro hcur
        obtain ⟨hs', -⟩ := hupd
        cases hs'
        simp only [mergePatch, Option.getD_some] at hcur ⊢
        exact h hcur

/-- Witness for C5 (amended): a `forecast` update with a target date keeps
the invariant. -/
theorem updateTemporal_preserves_invariant_witness :
    temporalInvariant ((ContextManager.updateTemporalContext
        (ContextManager.initializeContext 0) .forecast (some "2025-06-02") none 0).temporal)
    ∧ ∀ (store : SessStore) (sid : String) (s' : Session) (store2 : SessStore),
        SessionStore.updateTemporal store 0 sid .forecast (some "2025-06-02")
          = (some s', store2) →
        temporalInvariant s'.context.temporal :=
  updateTemporal_preserves_invariant (ContextManager.initializeContext 0) .forecast
    (some "2025-06-02") none 0 (fun hcontra => nomatch hcontra)

/-! ## C1 and C7 — the fan-out/fan-in join of the multi-lookup handler -/

/-- If any requested lookup fails, the join fails. -/
theorem execAll_error_of_mem (exec : WeatherToolParams → Except String WeatherToolResponse)
    (calls : List ToolCall) (tc : ToolCall) (e : String)
    (htc : tc ∈ calls) (he : exec tc.args = .error e) :
    ∃ e', execAll exec calls = .error e' := by
  induction calls with
  | nil => cases htc
  | cons hd rest ih =>
    cases htc with
    | head =>
        refine ⟨e, ?_⟩
        simp only [execAll, he]
    | tail _ hmem =>
        rcases hhd : exec hd.args with e'' | r
        · exact ⟨e'', by simp only [execAll, hhd]⟩
        · obtain ⟨e', he'⟩ := ih hmem
          exact ⟨e', by simp only [execAll, hhd, he']⟩

/-- If every requested lookup succeeds, the join returns all results in
request order, paired with their call identifiers. -/
theorem execAll_ok_of_all (exec : WeatherToolParams → Except String WeatherToolResponse)
    (f : ToolCall → WeatherToolResponse) (calls : List ToolCall)
    (h : ∀ tc ∈ calls, exec tc.args = .ok (f tc)) :
    execAll exec calls = .ok (calls.map fun tc => (tc.id, f tc)) := by
  induction calls with
  | nil => rfl
  | cons hd rest ih =>
    have hhd : exec hd.args = .ok (f hd) := h hd (List.mem_cons_self hd rest)
    have hrest := ih (fun tc htc => h tc (List.mem_cons_of_mem hd htc))
    simp only [execAll, hhd, hrest, List.map_cons]

/-- C1: in the tool-execution phase of a turn, the requested lookups are
joined by `Promise.all`; if any single lookup fails, the handler returns
`error: true` with the localized could-not-retrieve-weather message, and no
observation data from any lookup that succeeded in the same turn is
surfaced (`weatherData`, `toolsUsed` and `multiCity` are all absent). -/
theorem chatTools_any_failure_voids_turn (language : String) (messages : List Msg)
    (assistantMsg : Msg)
    (exec : WeatherToolParams → Except String WeatherToolResponse)
    (complete2 : List Msg → Except String String)
    (h : ∃ tc ∈ assistantMsg.toolCalls, ∃ e, exec tc.args = .error e) :
    chatToolsToolPhase language messages assistantMsg exec complete2 =
      { response := couldNotRetrieveMsg language, error := true, weatherData := none,
        toolsUsed := none, multiCity := none, toolUsed := none } := by
  obtain ⟨tc, htc, e, he⟩ := h
  obtain ⟨e', he'⟩ := execAll_error_of_mem exec assistantMsg.toolCalls tc e htc he
  simp only [chatToolsToolPhase, he']

/-- A sample observation for the concrete witnesses. -/
def obs0 : WeatherToolResponse :=
  { city := "Tokyo", country := "Japan", temperature := 21,
    description := "Clear sky", humidity := 40, windSpeed := 10,
    precipitation := 0, uvIndex := 5, timestamp := "2025-06-01T00:00",
    dateType := .current }

/-- A second sample observation for the concrete witnesses. -/
def obs1 : WeatherToolResponse :=
  { city := "Paris", country := "France", temperature := 18,
    description := "Overcast", humidity := 60, windSpeed := 14,
    precipitation := 2, uvIndex := 3, timestamp := "2025-06-01T00:00",
    dateType := .current }

/-- Witness for C1: of two requested lookups the second fails, and the
turn's response is the localized error body with no observation data. -/
theorem chatTools_any_failure_voids_turn_witness :
    chatToolsToolPhase "en" []
      { role := "assistant", content := "",
        toolCalls := [⟨"call_1", ⟨"Tokyo", none⟩⟩, ⟨"call_2", ⟨"Atlantis", none⟩⟩] }
      (fun p => if p.location = "Tokyo" then .ok obs0 else .error "Location not found")
      (fun _ => .ok "formatted") =
    { response := couldNotRetrieveMsg "en", error := true, weatherData := none,
      toolsUsed := none, multiCity := none, toolUsed := none } :=
  chatTools_any_failure_voids_turn "en" [] _ _ _
    ⟨⟨"call_2", ⟨"Atlantis", none⟩⟩,
      List.Mem.tail _ (List.Mem.head _), "Location not found", rfl⟩

/-- C7: when the completion provider requests `N` tool invocations and all
lookups succeed, the handler resubmits the tool-result messages to the
provider in the order of the `N` requests, each tagged with its originating
call identifier; on a successful second completion the final response
carries `toolsUsed = N`, `multiCity` exactly when `N > 1`, and the `N`
observations in request order. -/
theorem chatTools_success_shape (language : String) (messages : List Msg)
    (assistantMsg : Msg)
    (exec : WeatherToolParams → Except String WeatherToolResponse)
    (complete2 : List Msg → Except String String)
    (f : ToolCall → WeatherToolResponse)
    (_hn : 0 < assistantMsg.toolCalls.length)
    (hexec : ∀ tc ∈ assistantMsg.toolCalls, exec tc.args = .ok (f tc)) :
    chatToolsToolPhase language messages assistantMsg exec complete2 =
      (match complete2 (fmtSystemMsg language :: messages ++ [assistantMsg] ++
          assistantMsg.toolCalls.map (fun tc => toolMsg tc.id (f tc))) with
       | .error _ => { response := couldNotRetrieveMsg language, error := true }
       | .ok finalMessage =>
          { response := finalMessage
            weatherData := some (.many (assistantMsg.toolCalls.map f))
            toolsUsed := some assistantMsg.toolCalls.length
            multiCity := some (decide (assistantMsg.toolCalls.length > 1)) }) := by
  have hjoin := execAll_ok_of_all exec f assistantMsg.toolCalls hexec
  simp only [chatToolsToolPhase, hjoin, List.map_map, List.length_map]
  rfl

/-- The assistant message of the two-city witness turns: two requested
tool calls. -/
def twoCityAM : Msg :=
  { role := "assistant", content := "",
    toolCalls := [⟨"call_1", ⟨"Tokyo", none⟩⟩, ⟨"call_2", ⟨"Paris", none⟩⟩] }

/-- Witness for C7: two successful lookups; the response carries
`toolsUsed = 2`, `multiCity = true` and both observations in request
order. -/
theorem chatTools_success_shape_witness :
    chatToolsToolPhase "en" [] twoCityAM
      (fun p => .ok (if p.location = "Tokyo" then obs0 else obs1))
      (fun _ => .ok "formatted") =
    { response := "formatted"
      weatherData := some (.many [obs0, obs1])
      toolsUsed := some 2
      multiCity := some true } := by
  have h := chatTools_success_shape "en" [] twoCityAM
    (fun p => .ok (if p.location = "Tokyo" then obs0 else obs1))
    (fun _ => .ok "formatted")
    (fun tc => if tc.args.location = "Tokyo" then obs0 else obs1)
    (by decide) (fun tc _ => rfl)
  exact h.trans (by decide)

/-! ## C8 — the single-lookup handler executes only the first tool call -/

/-- C8: for every completion response carrying one or more tool-invocation
requests, the `/api/chat-optimized` handler executes exactly one weather
lookup — the first requested call (the outcome depends on the executor only
through its value at the first call's arguments) — and on success returns a
single observation object (not an array) with `toolUsed: true`. -/
theorem chatOptimized_first_call_only (language : String) (messages : List Msg)
    (assistantMsg : Msg)
    (exec : WeatherToolParams → Except String WeatherToolResponse)
    (complete2 : List Msg → Except String String)
    (tc : ToolCall) (rest : List ToolCall) (r : WeatherToolResponse)
    (finalMessage : String)
    (hcalls : assistantMsg.toolCalls = tc :: rest)
    (hr : exec tc.args = .ok r)
    (hc : complete2 (fmtSystemMsgSingle language :: messages ++ [assistantMsg] ++
        [toolMsg tc.id r]) = .ok finalMessage) :
    chatOptimizedToolPhase language messages assistantMsg exec complete2 =
      { response := finalMessage, weatherData := some (.one r), toolUsed := some true }
    ∧ ∀ exec', exec' tc.args = exec tc.args →
        chatOptimizedToolPhase language messages assistantMsg exec' complete2 =
        chatOptimizedToolPhase language messages assistantMsg exec complete2 := by
  constructor
  · simp only [chatOptimizedToolPhase, hcalls, hr, hc]
  · intro exec' hsame
    simp only [chatOptimizedToolPhase, hcalls, hsame]

/-- Witness for C8: of the two requested calls only the first (Tokyo) is
looked up; the response is the single Tokyo observation with
`toolUsed: true`, even though the second location would fail. -/
theorem chatOptimized_first_call_only_witness :
    chatOptimizedToolPhase "en" [] twoCityAM
      (fun p => if p.location = "Tokyo" then .ok obs0 else .error "Location not found")
      (fun _ => .ok "formatted") =
      { response := "formatted", weatherData := some (.one obs0), toolUsed := some true }
    ∧ ∀ exec', exec' (⟨"Tokyo", none⟩ : WeatherToolParams) =
        (fun p => if p.location = "Tokyo" then .ok obs0 else .error "Location not found")
          (⟨"Tokyo", none⟩ : WeatherToolParams) →
        chatOptimizedToolPhase "en" [] twoCityAM exec' (fun _ => .ok "formatted") =
        chatOptimizedToolPhase "en" [] twoCityAM
          (fun p => if p.location = "Tokyo" then .ok obs0 else .error "Location not found")
          (fun _ => .ok "formatted") :=
  chatOptimized_first_call_only "en" [] twoCityAM
    (fun p => if p.location = "Tokyo" then .ok obs0 else .error "Location not found")
    (fun _ => .ok "formatted")
    ⟨"call_1", ⟨"Tokyo", none⟩⟩ [⟨"call_2", ⟨"Paris", none⟩⟩] obs0 "formatted"
    rfl rfl rfl

/-! ## C3 — lazy expiry and sliding TTL of the session registry -/

/-- C3: for a stored session, `getSession` returns NotFound exactly when
the current time exceeds the recorded `expiresAt` — never before that
instant; an access after `expiresAt` also removes the entry from the store;
and every successful `updateSession` slides `expiresAt` forward to
`now + SESSION_TIMEOUT` (24 hours) and stores the updated session. -/
theorem getSession_expiry_and_slide (store : SessStore) (now : Int) (sid : String)
    (s : Session) (h : store.lookup sid = some s) :
    ((SessionStore.getSession store now sid).1 = none ↔ s.expiresAt < now)
    ∧ (s.expiresAt < now → ((SessionStore.getSession store now sid).2.lookup sid = none))
    ∧ (∀ (u : CtxPatch) (s' : Session) (store2 : SessStore),
        SessionStore.updateSession store now sid u = (some s', store2) →
        s'.expiresAt = now + SessionStore.SESSION_TIMEOUT
        ∧ store2.lookup sid = some s') := by
  refine ⟨?_, ?_, ?_⟩
  · by_cases hexp : s.expiresAt < now
    · simp [SessionStore.getSession, h, hexp]
    · simp [SessionStore.getSession, h, hexp]
  · intro hexp
    simp only [SessionStore.getSession, h, if_pos hexp]
    exact lookup_eraseKey store sid
  · intro u s' store2 hupd
    by_cases hexp : s.expiresAt < now
    · simp only [SessionStore.updateSession, SessionStore.getSession, h, if_pos hexp,
        Prod.mk.injEq] at hupd
      exact absurd hupd.1 (by simp)
    · simp only [SessionStore.updateSession, SessionStore.getSession, h, if_neg hexp,
        Prod.mk.injEq] at hupd
      obtain ⟨hs', hst⟩ := hupd
      cases hs'
      exact ⟨rfl, by rw [← hst]; exact lookup_setKey store sid _⟩

/-- A live session fixture for the C3 witness: stored at time 0, so
`expiresAt = 86400000`. -/
def c3Store : SessStore :=
  (SessionStore.createSession [] "s1" 0).2

/-- Witness for C3 on the concrete store `c3Store` probed at `now = 1000`
(before expiry): the session is found, not purged, and an update at that
instant slides `expiresAt` to `1000 + 86400000`. -/
theorem getSession_expiry_and_slide_witness :
    (((SessionStore.getSession c3Store 1000 "s1").1 = none ↔
        (SessionStore.createSession [] "s1" 0).1.expiresAt < 1000)
    ∧ ((SessionStore.createSession [] "s1" 0).1.expiresAt < 1000 →
        ((SessionStore.getSession c3Store 1000 "s1").2.lookup "s1" = none))
    ∧ (∀ (u : CtxPatch) (s' : Session) (store2 : SessStore),
        SessionStore.updateSession c3Store 1000 "s1" u = (some s', store2) →
        s'.expiresAt = 1000 + SessionStore.SESSION_TIMEOUT
        ∧ store2.lookup "s1" = some s')) :=
  getSession_expiry_and_slide c3Store 1000 "s1" (SessionStore.createSession [] "s1" 0).1 rfl

/-! ## C4 — the recent-locations list is a capped, deduplicated MRU list -/

/-- Inserting an entry with the key of `loc` in front of the list purged of
that key keeps the keys pairwise distinct. -/
theorem mru_cons_filter_nodup (recent : List LocationData) (cur loc : LocationData)
    (hcity : cur.city = loc.city) (hcountry : cur.country = loc.country)
    (hnd : (recent.map locKey).Nodup) :
    ((cur :: recent.filter
        (fun l => !(l.city == loc.city && l.country == loc.country))).map locKey).Nodup := by
  rw [List.map_cons, List.nodup_cons]
  refine ⟨?_, ?_⟩
  · intro hmem
    obtain ⟨l, hlmem, hlkey⟩ := List.mem_map.1 hmem
    have hfil := (List.mem_filter.1 hlmem).2
    simp only [locKey, Prod.mk.injEq] at hlkey
    simp only [Bool.not_eq_true', Bool.and_eq_false_iff, beq_eq_false_iff_ne] at hfil
    rcases hfil with hf | hf
    · exact hf (hlkey.1.trans hcity)
    · exact hf (hlkey.2.trans hcountry)
  · exact List.Nodup.sublist ((List.filter_sublist _).map locKey) hnd

/-- Taking a prefix keeps the keys pairwise distinct. -/
theorem mru_take_nodup (r : List LocationData) (n : Nat)
    (h : (r.map locKey).Nodup) : ((r.take n).map locKey).Nodup := by
  rw [List.map_take]
  exact List.Nodup.sublist (List.take_sublist _ _) h

/-- One `ContextManager.updateLocation` step: distinct keys are preserved,
the cap 5 is enforced, and the just-updated location sits at the head. -/
theorem updateLocation_recent_step (ctx : WeatherContext) (loc : LocationData) (now : Int)
    (hnd : (ctx.location.recent.map locKey).Nodup) :
    ((ContextManager.updateLocation ctx loc now).location.recent.map locKey).Nodup
    ∧ (ContextManager.updateLocation ctx loc now).location.recent.length ≤ 5
    ∧ ((ContextManager.updateLocation ctx loc now).location.recent.head?.map locKey
        = some (locKey loc)) := by
  simp only [ContextManager.updateLocation, ContextManager.addToConversationFlow]
  set cur : LocationData :=
    { loc with
      lastUsed := some now,
      confidence := some (match loc.confidence with
        | some c => if c = 0 then 10 else c
        | none => 10) } with hcur
  set r := cur :: ctx.location.recent.filter
    (fun l => !(l.city == loc.city && l.country == loc.country)) with hr
  have hndr : (r.map locKey).Nodup :=
    mru_cons_filter_nodup ctx.location.recent cur loc rfl rfl hnd
  by_cases hlong : r.length > ContextManager.MAX_RECENT_LOCATIONS
  · simp only [if_pos hlong]
    refine ⟨mru_take_nodup r _ hndr, List.length_take_le _ _, ?_⟩
    rw [hr]
    rfl
  · simp only [if_neg hlong]
    refine ⟨hndr, ?_, ?_⟩
    · exact Nat.le_of_not_lt hlong
    · rw [hr]
      rfl

/-- A whole history of `updateLocation` calls, applied in order: each call
is a location paired with its call instant. -/
def runUpdates (ctx : WeatherContext) (calls : List (LocationData × Int)) : WeatherContext :=
  calls.foldl (fun c p => ContextManager.updateLocation c p.1 p.2) ctx

/-- The invariant carried along any sequence of `updateLocation` calls. -/
theorem runUpdates_inv (calls : List (LocationData × Int)) :
    ∀ ctx : WeatherContext, (ctx.location.recent.map locKey).Nodup →
    ctx.location.recent.length ≤ 5 →
    ((runUpdates ctx calls).location.recent.map locKey).Nodup
    ∧ (runUpdates ctx calls).location.recent.length ≤ 5
    ∧ ∀ hne : calls ≠ [],
        (runUpdates ctx calls).location.recent.head?.map locKey
          = some (locKey (calls.getLast hne).1) := by
  induction calls with
  | nil =>
    intro ctx hnd hlen
    exact ⟨hnd, hlen, fun hne => absurd rfl hne⟩
  | cons c cs ih =>
    intro ctx hnd _
    have hstep := updateLocation_recent_step ctx c.1 c.2 hnd
    have hrec : runUpdates ctx (c :: cs) =
        runUpdates (ContextManager.updateLocation ctx c.1 c.2) cs := rfl
    have ihc := ih (ContextManager.updateLocation ctx c.1 c.2) hstep.1 hstep.2.1
    rw [hrec]
    refine ⟨ihc.1, ihc.2.1, fun _ => ?_⟩
    cases cs with
    | nil => simpa [runUpdates, List.getLast] using hstep.2.2
    | cons d ds =>
      rw [List.getLast_cons (by simp : (d :: ds) ≠ [])]
      exact ihc.2.2 (by simp)

/-- C4: for every nonempty sequence of `updateLocation` calls starting
from the fresh context, the recent-locations list has pairwise-distinct
`(city, country)` pairs, length at most 5, and the location of the latest
call at its head; and the `SessionStore.updateLocation` step maintains the
same three properties on the session it stores. -/
theorem updateLocation_recent_mru (calls : List (LocationData × Int)) (hne : calls ≠ []) :
    ((runUpdates (ContextManager.initializeContext 0) calls).location.recent.map locKey).Nodup
    ∧ (runUpdates (ContextManager.initializeContext 0) calls).location.recent.length ≤ 5
    ∧ ((runUpdates (ContextManager.initializeContext 0) calls).location.recent.head?.map locKey
        = some (locKey (calls.getLast hne).1))
    ∧ ∀ (store : SessStore) (now : Int) (sid : String) (loc : LocationData)
        (s' : Session) (store2 : SessStore),
        SessionStore.updateLocation store now sid loc = (some s', store2) →
        (∀ s, store.lookup sid = some s → (s.context.location.recent.map locKey).Nodup) →
        (s'.context.location.recent.map locKey).Nodup
        ∧ s'.context.location.recent.length ≤ 5
        ∧ s'.context.location.recent.head? = some loc := by
  have hmain := runUpdates_inv calls (ContextManager.initializeContext 0)
    (by simp [ContextManager.initializeContext])
    (by simp [ContextManager.initializeContext])
  refine ⟨hmain.1, hmain.2.1, hmain.2.2 hne, ?_⟩
  intro store now sid loc s' store2 hupd hstore
  rcases hg : SessionStore.getSession store now sid with ⟨os, st⟩
  cases os with
  | none =>
    simp only [SessionStore.updateLocation, hg, Prod.mk.injEq] at hupd
    exact absurd hupd.1 (by simp)
  | some session =>
    have hlook : store.lookup sid = some session := by
      unfold SessionStore.getSession at hg
      rcases hl : store.lookup sid with _ | s0
      · simp only [hl, Prod.mk.injEq] at hg
        exact absurd hg.1 (by simp)
      · simp only [hl] at hg
        by_cases hexp : s0.expiresAt < now
        · simp only [if_pos hexp, Prod.mk.injEq] at hg
          exact absurd hg.1 (by simp)
        · simp only [if_neg hexp, Prod.mk.injEq, Option.some.injEq] at hg
          rw [hg.1]
    have hnd := hstore session hlook
    simp only [SessionStore.updateLocation, SessionStore.updateSession, hg,
      Prod.mk.injEq] at hupd
    obtain ⟨hs', -⟩ := hupd
    cases hs'
    simp only [mergePatch, Option.getD_some]
    refine ⟨?_, ?_, ?_⟩
    · exact mru_take_nodup _ _
        (mru_cons_filter_nodup session.context.location.recent loc loc rfl rfl hnd)
    · exact List.length_take_le _ _
    · rfl

/-- A Tokyo location fixture. -/
def tokyoLoc : LocationData :=
  { city := "Tokyo", country := "Japan", latitude := 356762, longitude := 1396503 }

/-- Witness for C4: after updating to Tokyo and then Varanasi, the recent
list has distinct keys, at most 5 entries, and Varanasi (the latest call)
at the head. -/
theorem updateLocation_recent_mru_witness :
    ((runUpdates (ContextManager.initializeContext 0)
        [(tokyoLoc, 1), (varanasiLoc, 2)]).location.recent.map locKey).Nodup
    ∧ (runUpdates (ContextManager.initializeContext 0)
        [(tokyoLoc, 1), (varanasiLoc, 2)]).location.recent.length ≤ 5
    ∧ ((runUpdates (ContextManager.initializeContext 0)
          [(tokyoLoc, 1), (varanasiLoc, 2)]).location.recent.head?.map locKey
        = some (locKey (([(tokyoLoc, 1), (varanasiLoc, 2)]
            : List (LocationData × Int)).getLast (List.cons_ne_nil _ _)).1))
    ∧ ∀ (store : SessStore) (now : Int) (sid : String) (loc : LocationData)
        (s' : Session) (store2 : SessStore),
        SessionStore.updateLocation store now sid loc = (some s', store2) →
        (∀ s, store.lookup sid = some s → (s.context.location.recent.map locKey).Nodup) →
        (s'.context.location.recent.map locKey).Nodup
        ∧ s'.context.location.recent.length ≤ 5
        ∧ s'.context.location.recent.head? = some loc :=
  updateLocation_recent_mru [(tokyoLoc, 1), (varanasiLoc, 2)] (List.cons_ne_nil _ _)

/-! ## C2 — the date classifier -/

/-- A string matching the date pattern has exactly 10 characters. -/
theorem isDateLiteral_length (s : String) (h : isDateLiteral s = true) :
    s.data.length = 10 := by
  unfold isDateLiteral at h
  split at h
  · next a b c d h1 e f h2 g i heq =>
      rw [heq]
      rfl
  · exact absurd h (by simp)

/-- A string matching the date pattern lower-cases to none of the four
keywords (their lengths differ from 10). -/
theorem isDateLiteral_not_keyword (s : String) (h : isDateLiteral s = true) :
    jsToLower s ≠ "today" ∧ jsToLower s ≠ "now" ∧ jsToLower s ≠ "tomorrow"
    ∧ jsToLower s ≠ "yesterday" := by
  have hlen : (jsToLower s).data.length = 10 := by
    simp only [jsToLower, List.length_map]
    exact isDateLiteral_length s h
  refine ⟨?_, ?_, ?_, ?_⟩ <;>
    · intro hcontra
      rw [hcontra] at hlen
      simp at hlen

/-- C2 counterexample: with `now` at noon UTC on 2025-06-01 (day number
20240), the literal `"2025-06-01"` denotes today's own civil day — not a
day strictly before today — yet the classifier returns `historical`,
because the code compares the literal's UTC midnight against the current
instant (`new Date(dateStr) < today`). -/
theorem parseDate_today_literal_historical :
    parseDate ⟨20240, 43200000⟩ "2025-06-01" = ⟨some "2025-06-01", .historical⟩
    ∧ civilDayOfString "2025-06-01" = some 20240 := by
  constructor <;> decide

/-- C2 (amended): the date classifier is pure and maps `"today"`/`"now"` to
`current` with no target date, `"tomorrow"` to `forecast` targeting
today + 1 day, `"yesterday"` to `historical` targeting today − 1 day; a
valid `YYYY-MM-DD` literal to `historical` exactly when its UTC midnight
lies strictly before the current instant — i.e. when its day is strictly
before today, or equals today at any time after midnight — and `forecast`
otherwise; a pattern-matching but invalid calendar date to `forecast`; and
every other input string to `current` with no target date. -/
theorem parseDate_classification (now : Instant) (hms : now.ms < 86400000) :
    parseDate now "today" = ⟨none, .current⟩
    ∧ parseDate now "now" = ⟨none, .current⟩
    ∧ parseDate now "tomorrow" = ⟨some (formatDay (now.days + 1)), .forecast⟩
    ∧ parseDate now "yesterday" = ⟨some (formatDay (now.days - 1)), .historical⟩
    ∧ (∀ s z, isDateLiteral s = true → civilDayOfString s = some z →
        parseDate now s = ⟨some s,
          if z < now.days ∨ (z = now.days ∧ 0 < now.ms) then .historical else .forecast⟩)
    ∧ (∀ s, isDateLiteral s = true → civilDayOfString s = none →
        parseDate now s = ⟨some s, .forecast⟩)
    ∧ (∀ s, jsToLower s ≠ "today" → jsToLower s ≠ "now" → jsToLower s ≠ "tomorrow" →
        jsToLower s ≠ "yesterday" → isDateLiteral s = false →
        parseDate now s = ⟨none, .current⟩) := by
  refine ⟨rfl, rfl, rfl, rfl, ?_, ?_, ?_⟩
  · intro s z hlit hday
    obtain ⟨hk1, hk2, hk3, hk4⟩ := isDateLiteral_not_keyword s hlit
    unfold parseDate
    rw [if_neg (by exact fun hc => hc.elim hk1 hk2), if_neg hk3, if_neg hk4,
      if_pos hlit, hday]
    have hiff : (z * msPerDay < now.epochMs) ↔
        (z < now.days ∨ (z = now.days ∧ 0 < now.ms)) := by
      simp only [msPerDay, Instant.epochMs]
      omega
    show ({ targetDate := some s,
            dateType := (if z * msPerDay < now.epochMs then Timeframe.historical
              else Timeframe.forecast) } : DateResult) =
      ({ targetDate := some s,
         dateType := (if z < now.days ∨ (z = now.days ∧ 0 < now.ms) then Timeframe.historical
           else Timeframe.forecast) } : DateResult)
    by_cases hc : z < now.days ∨ (z = now.days ∧ 0 < now.ms)
    · rw [if_pos (hiff.mpr hc), if_pos hc]
    · rw [if_neg (fun hcode => hc (hiff.mp hcode)), if_neg hc]
  · intro s hlit hday
    obtain ⟨hk1, hk2, hk3, hk4⟩ := isDateLiteral_not_keyword s hlit
    unfold parseDate
    rw [if_neg (by exact fun hc => hc.elim hk1 hk2), if_neg hk3, if_neg hk4,
      if_pos hlit, hday]
  · intro s hk1 hk2 hk3 hk4 hlit
    unfold parseDate
    rw [if_neg (by exact fun hc => hc.elim hk1 hk2), if_neg hk3, if_neg hk4,
      if_neg (by simp [hlit])]

/-- Witness for C2 at noon UTC on 2025-06-01: the keyword `"today"`
classifies as `current` with no target date. -/
theorem parseDate_classification_witness :
    parseDate ⟨20240, 43200000⟩ "today" = ⟨none, .current⟩ :=
  (parseDate_classification ⟨20240, 43200000⟩ (by decide)).1
